import Mathlib

/-!
Formal model (shallow embedding) of the conversion engine of the
mqtt-weather-provider repository: `src/converters.rs` and
`src/parsers/sw_forecast_parser.rs`.

Modelling conventions:
* Rust `Result<T, String>` together with the possibility of a panic
  (`expect`, slice/index panics, failed `assert!`) is modelled by
  `RustResult`.  Error messages mirror the `format!` templates of the source,
  with the interpolated library error text dropped.
* `f32` values in this program are only ever parsed from decimal/scientific
  literals and compared for equality; no arithmetic is performed on them.
  They are therefore modelled by the exact decimal value they denote
  (`Dec`, a normalised `m * 10^e`), plus `nan`/`inf` alternatives (`FVal`).
  Two decimal literals denote the same `f32` exactly when they denote the
  same decimal value here (both sides of every comparison in the claims go
  through the same literal-to-value conversion).
* chrono's `NaiveDateTime::parse_from_str` is modelled for the two format
  strings that occur in the source (`"%Y-%m-%d %H:%M:%S%.3f"` and
  `"%Y-%m-%dT%H:%M:%S%Z"`), following chrono's parsing rules: a literal
  matches exactly, a space in the format skips any amount of whitespace,
  any leading whitespace is also skipped before every numeric field (chrono
  calls `trim_start()` there), `%Y` takes up to 4 digits (more when
  explicitly signed), `%m`/`%d`/`%H`/`%M`/`%S` take 1-2 digits, `%.3f`
  optionally takes a dot followed by exactly 3 digits, `%Z` skips
  non-whitespace characters, the whole input must be consumed, and all
  fields are range- and calendar-checked.
* Adding `chrono::Duration::hours` is modelled by exact calendar arithmetic
  (Howard Hinnant's civil-date algorithms) together with chrono's two panic
  conditions, both modelled as `crash`: `Duration::hours` panics beyond
  ±2562047788015 hours (`i64::MAX` milliseconds), and the `+=` panics when
  the shifted date leaves chrono's `NaiveDate` range (`-262144-01-01` to
  `+262143-12-31`) — reachable, since `%Y` accepts explicitly signed years
  up to the range bound.
* nom parsers are modelled as functions `List Char → Option (List Char × α)`;
  `Option.none` covers both a nom parse error and a panic inside the parser
  (`unwrap` on out-of-range `u8`, an out-of-bounds `dates[index]`, a failed
  `assert!`), since `parse_sw_forecast` turns either into a process panic.
* `serde_json` deserialisation is modelled for `Vec<Vec<String>>` (the shape
  the release-cadence Kp converter needs).  The final
  `serde_json::to_string` of each converter is not modelled: it cannot fail
  for the values produced here, so each converter returns the Lean-level
  value that would be serialised.
-/

set_option maxRecDepth 100000

/-- Outcome of a Rust computation: a `Result::Ok`, a `Result::Err`, or a
panic (which aborts the process instead of returning a value). -/
inductive RustResult (α : Type) where
  | ok (val : α)
  | err (msg : String)
  | crash (msg : String)
deriving Repr, DecidableEq

def RustResult.isOk {α : Type} : RustResult α → Bool
  | .ok _ => true
  | _ => false

def RustResult.isErr {α : Type} : RustResult α → Bool
  | .err _ => true
  | _ => false

/-- An exact decimal value `m * 10 ^ e`. -/
structure Dec where
  m : Int
  e : Int
deriving Repr, DecidableEq

/-- Strip factors of 10 from the mantissa (fuelled, structurally recursive). -/
def Dec.stripTens : Nat → Int → Int → Dec
  | 0, m, e => ⟨m, e⟩
  | fuel + 1, m, e =>
    if m % 10 = 0 then Dec.stripTens fuel (m / 10) (e + 1) else ⟨m, e⟩

/-- Normal form of a decimal value: mantissa not divisible by 10, and 0 is
represented as `0 * 10 ^ 0`.  Two decimal literals denote the same value iff
their normal forms are equal. -/
def Dec.norm (d : Dec) : Dec :=
  if d.m = 0 then ⟨0, 0⟩ else Dec.stripTens d.m.natAbs d.m d.e

/-- The value denoted by a floating-point literal: an exact decimal, a NaN,
or an infinity. -/
inductive FVal where
  | num (d : Dec)
  | nan
  | inf (neg : Bool)
deriving Repr, DecidableEq

/-- The decimal value `m * 10 ^ e` as an `FVal`, normalised. -/
def fnum (m e : Int) : FVal := .num (Dec.norm ⟨m, e⟩)

/-! ## Calendar arithmetic (model of chrono's NaiveDate/NaiveDateTime)

Proleptic Gregorian calendar, via Howard Hinnant's civil-date algorithms,
using floor division (`Int.ediv`/`Int.emod`, which agree with floor division
for positive divisors). -/

def daysInMonth (y m : Int) : Int :=
  if m = 2 then
    if (Int.emod y 4 = 0 ∧ Int.emod y 100 ≠ 0) ∨ Int.emod y 400 = 0 then 29 else 28
  else if m = 4 ∨ m = 6 ∨ m = 9 ∨ m = 11 then 30
  else 31

/-- Days since 1970-01-01 of a civil date (Hinnant's `days_from_civil`). -/
def daysFromCivil (y m d : Int) : Int :=
  let y' := y - (if m ≤ 2 then 1 else 0)
  let era := Int.ediv y' 400
  let yoe := y' - era * 400
  let mp := m + (if m > 2 then -3 else 9)
  let doy := Int.ediv (153 * mp + 2) 5 + d - 1
  let doe := yoe * 365 + Int.ediv yoe 4 - Int.ediv yoe 100 + doy
  era * 146097 + doe - 719468

/-- Civil date of a count of days since 1970-01-01 (Hinnant's
`civil_from_days`). -/
def civilFromDays (z0 : Int) : Int × Int × Int :=
  let z := z0 + 719468
  let era := Int.ediv z 146097
  let doe := z - era * 146097
  let yoe := Int.ediv (doe - Int.ediv doe 1460 + Int.ediv doe 36524 - Int.ediv doe 146096) 365
  let y := yoe + era * 400
  let doy := doe - (365 * yoe + Int.ediv yoe 4 - Int.ediv yoe 100)
  let mp := Int.ediv (5 * doy + 2) 153
  let d := doy - Int.ediv (153 * mp + 2) 5 + 1
  let m := mp + (if mp < 10 then 3 else -9)
  (y + (if m ≤ 2 then 1 else 0), m, d)

/-- A parsed date-time (what `NaiveDateTime::parse_from_str` produces, to the
precision this program observes; sub-second digits are validated during
parsing but not retained). -/
structure DT where
  year : Int
  month : Int
  day : Int
  hour : Int
  minute : Int
  second : Int
deriving Repr, DecidableEq

/-- The two chrono format strings used by `converters.rs`. -/
inductive DTFormat where
  | kpRelease  -- "%Y-%m-%d %H:%M:%S%.3f"
  | isoTz      -- "%Y-%m-%dT%H:%M:%S%Z"
deriving Repr, DecidableEq

def digitsVal (ds : List Char) : Nat :=
  ds.foldl (fun acc c => acc * 10 + (c.toNat - 48)) 0

/-- Split a list into its longest prefix of characters satisfying `p` and
the remainder (single pass). -/
def spanP (p : Char → Bool) : List Char → List Char × List Char
  | [] => ([], [])
  | c :: cs =>
    if p c then
      match spanP p cs with
      | (tk, rest) => (c :: tk, rest)
    else ([], c :: cs)

/-- Up to `maxw` leading digits and the remainder (single pass). -/
def takeDigits : Nat → List Char → List Char × List Char
  | _, [] => ([], [])
  | 0, cs => ([], cs)
  | w + 1, c :: cs =>
    if c.isDigit then
      match takeDigits w cs with
      | (ds, rest) => (c :: ds, rest)
    else ([], c :: cs)

/-- Greedily take at most `maxw` digits (at least one), as chrono's numeric
field scanner does. -/
def parseNumMax (maxw : Nat) (cs : List Char) : Option (Nat × List Char) :=
  match takeDigits maxw cs with
  | ([], _) => none
  | (ds, rest) => some (digitsVal ds, rest)

/-- chrono's `%Y`: at most 4 digits, or arbitrarily many after an explicit
sign. -/
def parseYear (cs : List Char) : Option (Int × List Char) :=
  match cs with
  | '-' :: rest => (parseNumMax rest.length rest).map (fun p => (-(p.1 : Int), p.2))
  | '+' :: rest => (parseNumMax rest.length rest).map (fun p => ((p.1 : Int), p.2))
  | _ => (parseNumMax 4 cs).map (fun p => ((p.1 : Int), p.2))

def litChar (c : Char) (cs : List Char) : Option (List Char) :=
  match cs with
  | c' :: rest => if c == c' then some rest else none
  | [] => none

/-- chrono's whitespace item (a space in the format string): skip any amount
of whitespace, including none. -/
def skipWs (cs : List Char) : List Char := cs.dropWhile Char.isWhitespace

/-- chrono's `%.3f`: optionally, a dot followed by exactly 3 digits. -/
def parseDotNanos3 (cs : List Char) : Option (List Char) :=
  match cs with
  | '.' :: d1 :: d2 :: d3 :: rest =>
    if d1.isDigit ∧ d2.isDigit ∧ d3.isDigit then some rest else none
  | '.' :: _ => none
  | _ => some cs

/-- chrono's `%Z` when parsing: skip all non-whitespace characters. -/
def skipTzName (cs : List Char) : List Char :=
  cs.dropWhile (fun c => ¬ c.isWhitespace)

/-- Model of `NaiveDateTime::parse_from_str` for the two formats used by the
program.  All of: structure of the format, chrono's skipping of any leading
whitespace before every numeric field (`s.trim_start()` in its parse loop;
literal and fixed items match in place), strict consumption of the whole
input, and chrono's range and calendar validity checks (including its
±262143-year date range and leap-second-tolerant `%S`). -/
def parseDTCh (fmt : DTFormat) (cs0 : List Char) : Option DT :=
  match parseYear (skipWs cs0) with
  | none => none
  | some (y, cs1) =>
    match litChar '-' cs1 with
    | none => none
    | some cs2 =>
      match parseNumMax 2 (skipWs cs2) with
      | none => none
      | some (mo, cs3) =>
        match litChar '-' cs3 with
        | none => none
        | some cs4 =>
          match parseNumMax 2 (skipWs cs4) with
          | none => none
          | some (d, cs5) =>
            let sep : Option (List Char) :=
              match fmt with
              | .kpRelease => some (skipWs cs5)
              | .isoTz => litChar 'T' cs5
            match sep with
            | none => none
            | some cs6 =>
              match parseNumMax 2 (skipWs cs6) with
              | none => none
              | some (h, cs7) =>
                match litChar ':' cs7 with
                | none => none
                | some cs8 =>
                  match parseNumMax 2 (skipWs cs8) with
                  | none => none
                  | some (mi, cs9) =>
                    match litChar ':' cs9 with
                    | none => none
                    | some cs10 =>
                      match parseNumMax 2 (skipWs cs10) with
                      | none => none
                      | some (s, cs11) =>
                        let tail : Option (List Char) :=
                          match fmt with
                          | .kpRelease => parseDotNanos3 cs11
                          | .isoTz => some (skipTzName cs11)
                        match tail with
                        | none => none
                        | some cs12 =>
                          if cs12.isEmpty ∧
                             -262144 ≤ y ∧ y ≤ 262143 ∧
                             1 ≤ (mo : Int) ∧ (mo : Int) ≤ 12 ∧
                             1 ≤ (d : Int) ∧ (d : Int) ≤ daysInMonth y mo ∧
                             h ≤ 23 ∧ mi ≤ 59 ∧ s ≤ 60 then
                            some ⟨y, mo, d, h, mi, s⟩
                          else none

/-- Days-since-epoch of chrono's `NaiveDate::MIN` (`-262144-01-01`). -/
def chronoMinDays : Int := daysFromCivil (-262144) 1 1

/-- Days-since-epoch of chrono's `NaiveDate::MAX` (`+262143-12-31`). -/
def chronoMaxDays : Int := daysFromCivil 262143 12 31

/-- Largest hour count accepted by `chrono::Duration::hours` (its magnitude
is bounded by `i64::MAX` milliseconds; beyond this the constructor panics). -/
def chronoMaxDurationHours : Int := 2562047788015

/-- Model of the shift inside `datetime += chrono::Duration::hours(..)`:
exact calendar arithmetic, with `none` for chrono's overflow panic when the
shifted date leaves the `NaiveDate` range. -/
def dtAddHours (t : DT) (offset : Int) : Option DT :=
  let days := daysFromCivil t.year t.month t.day
  let total := days * 24 + t.hour + offset
  let days' := Int.ediv total 24
  if days' < chronoMinDays ∨ chronoMaxDays < days' then none
  else
    let h' := Int.emod total 24
    let ymd := civilFromDays days'
    some ⟨ymd.1, ymd.2.1, ymd.2.2, h', t.minute, t.second⟩

def padNum (w : Nat) (n : Int) : String :=
  let s := toString n.natAbs
  let pad := String.mk (List.replicate (w - s.length) '0')
  pad ++ s

/-- chrono's `%Y` formatting: at least 4 digits, `-` for negative years, `+`
for years above 9999. -/
def year4 (y : Int) : String :=
  if y < 0 then "-" ++ padNum 4 y
  else if y > 9999 then "+" ++ padNum 4 y
  else padNum 4 y

/-- chrono's `format("%H:%M %d-%m-%Y")`. -/
def renderHMDMY (t : DT) : String :=
  padNum 2 t.hour ++ ":" ++ padNum 2 t.minute ++ " " ++
  padNum 2 t.day ++ "-" ++ padNum 2 t.month ++ "-" ++ year4 t.year

/-- Model of `convert_datetime` (converters.rs:155-160): parse the input
strictly against the format (error on mismatch, via `?`), then
`datetime += chrono::Duration::hours(offset_hours)` — which panics when the
offset exceeds `Duration`'s bounds or the shifted date leaves chrono's
`NaiveDate` range — then render as `"%H:%M %d-%m-%Y"`. -/
def convert_datetime (input : String) (in_format : DTFormat) (offset_hours : Int) :
    RustResult String :=
  match parseDTCh in_format input.data with
  | none => .err "parsing datetime string error"
  | some t =>
    if chronoMaxDurationHours < offset_hours ∨ offset_hours < -chronoMaxDurationHours then
      .crash "Duration hours out of bounds"
    else
      match dtAddHours t offset_hours with
      | none => .crash "NaiveDateTime plus TimeDelta overflowed"
      | some t' => .ok (renderHMDMY t')

/-! ## Model of the nom parser combinators used by `sw_forecast_parser.rs`

A parser consumes a prefix of a `List Char` and either fails (`none`) or
returns the unconsumed remainder together with a value.  `none` also covers a
panic raised inside a parser (`unwrap` of an out-of-range `u8`, an
out-of-bounds `dates[index]`, a failed `assert!`): `parse_sw_forecast` turns
a parse error and such a panic alike into a process panic, which is the only
level at which the claims observe them. -/

abbrev NomP (α : Type) : Type := List Char → Option (List Char × α)

def NomP.pureP {α : Type} (a : α) : NomP α := fun input => some (input, a)

def NomP.bindP {α β : Type} (p : NomP α) (f : α → NomP β) : NomP β := fun input =>
  match p input with
  | none => none
  | some (rest, a) => f a rest

instance : Monad NomP where
  pure := NomP.pureP
  bind := NomP.bindP

def failP {α : Type} : NomP α := fun _ => none

/-- Does the first list occur as a prefix of the second? -/
def lstarts : List Char → List Char → Bool
  | [], _ => true
  | _ :: _, [] => false
  | a :: as, b :: bs => a == b && lstarts as bs

/-- Case-insensitive version of `lstarts` (for nom's `tag_no_case`). -/
def lstartsCI : List Char → List Char → Bool
  | [], _ => true
  | _ :: _, [] => false
  | a :: as, b :: bs => a.toLower == b.toLower && lstartsCI as bs

/-- nom `tag`. -/
def tagP (t : List Char) : NomP (List Char) := fun input =>
  if lstarts t input then some (input.drop t.length, t) else none

/-- nom `take_until`: consume up to (not including) the first occurrence of
`t`; fail if `t` does not occur. -/
def takeUntilP (t : List Char) : NomP (List Char)
  | [] => if lstarts t [] then some ([], []) else none
  | c :: cs =>
    if lstarts t (c :: cs) then some (c :: cs, [])
    else
      match takeUntilP t cs with
      | none => none
      | some (rest, pre) => some (rest, c :: pre)

/-- Model of `takeWhile1`: one or more characters satisfying `p` (the shape of nom's
`alpha1`, `digit1`, `space1`, `multispace1`). -/
def takeWhile1 (p : Char → Bool) : NomP (List Char) := fun input =>
  match spanP p input with
  | ([], _) => none
  | (tk, rest) => some (rest, tk)

def alpha1 : NomP (List Char) := takeWhile1 Char.isAlpha

def digit1 : NomP (List Char) := takeWhile1 Char.isDigit

def alphanumeric1 : NomP (List Char) := takeWhile1 Char.isAlphanum

def space1 : NomP (List Char) := takeWhile1 (fun c => c == ' ' || c == '\t')

def space0 : NomP (List Char) := fun input =>
  match spanP (fun c => c == ' ' || c == '\t') input with
  | (tk, rest) => some (rest, tk)

def multispace1 : NomP (List Char) :=
  takeWhile1 (fun c => c == ' ' || c == '\t' || c == '\r' || c == '\n')

/-- nom `line_ending`: `"\n"` or `"\r\n"`. -/
def line_ending : NomP (List Char) := fun input =>
  match input with
  | '\n' :: rest => some (rest, ['\n'])
  | '\r' :: '\n' :: rest => some (rest, ['\r', '\n'])
  | _ => none

/-- nom `not_line_ending`: everything (possibly nothing) before `'\r'`/`'\n'`;
a `'\r'` not followed by `'\n'` is an error. -/
def not_line_ending : NomP (List Char) := fun input =>
  match spanP (fun c => c != '\r' && c != '\n') input with
  | (tk, rest) =>
    match rest with
    | '\r' :: '\n' :: _ => some (rest, tk)
    | '\r' :: _ => none
    | _ => some (rest, tk)

def optP {α : Type} (p : NomP α) : NomP (Option α) := fun input =>
  match p input with
  | none => some (input, none)
  | some (rest, a) => some (rest, some a)

def precededP {α β : Type} (f : NomP α) (g : NomP β) : NomP β := do
  let _ ← f
  g

def delimitedP {α β γ : Type} (f : NomP α) (g : NomP β) (h : NomP γ) : NomP β := do
  let _ ← f
  let x ← g
  let _ ← h
  pure x

/-- many0 loop with fuel.  Every parser iterated in this file consumes at
least one character on success, so fuel `input.length + 1` is always enough
(and nom's zero-length-match loop protection never fires). -/
def manyGo {α : Type} (p : NomP α) : Nat → NomP (List α)
  | 0 => failP
  | fuel + 1 => fun input =>
    match p input with
    | none => some (input, [])
    | some (rest, a) =>
      match manyGo p fuel rest with
      | none => none
      | some (rest', as) => some (rest', a :: as)

/-- nom `many1`. -/
def many1P {α : Type} (p : NomP α) : NomP (List α) := fun input =>
  match p input with
  | none => none
  | some (rest, a) =>
    match manyGo p (rest.length + 1) rest with
    | none => none
    | some (rest', as) => some (rest', a :: as)

/-! ### nom `float` and Rust `f32::from_str`, as exact decimal values -/

/-- Model of `u8::from_str(..)`: the numeric value of a digit string if it fits in a
`u8`; `none` models the `Err` (whose `unwrap` panics). -/
def u8FromStr (ds : List Char) : Option Nat :=
  let v := digitsVal ds
  if v ≤ 255 then some v else none

/-- The value of a decimal literal: sign, all mantissa digits, number of
fraction digits among them, decimal exponent. -/
def mkFVal (neg : Bool) (digits : List Char) (fracLen : Nat) (ex : Int) : FVal :=
  fnum (if neg then -(digitsVal digits : Int) else (digitsVal digits : Int)) (ex - fracLen)

/-- Mantissa of nom's `recognize_float` (after the sign):
`digit1 (. digit0)?` or `. digit1`.  Returns (mantissa digits, number of
fraction digits). -/
def mantissaP : NomP (List Char × Nat) := fun cs =>
  match digit1 cs with
  | some (r1, intDs) =>
    match r1 with
    | '.' :: r2 =>
      match spanP Char.isDigit r2 with
      | (fds, rest) => some (rest, (intDs ++ fds, fds.length))
    | _ => some (r1, (intDs, 0))
  | none =>
    match cs with
    | '.' :: r2 =>
      match digit1 r2 with
      | some (r3, fds) => some (r3, (fds, fds.length))
      | none => none
    | _ => none

/-- Exponent part `e/E [+-] digit1`; callers invoke it only when the input
starts with `e`/`E`, and its failure is fatal (nom `cut`). -/
def expPart : NomP Int := fun input =>
  match input with
  | c :: rest =>
    if c == 'e' || c == 'E' then
      match rest with
      | '+' :: rest2 =>
        match digit1 rest2 with
        | none => none
        | some (r, ds) => some (r, (digitsVal ds : Int))
      | '-' :: rest2 =>
        match digit1 rest2 with
        | none => none
        | some (r, ds) => some (r, -(digitsVal ds : Int))
      | _ =>
        match digit1 rest with
        | none => none
        | some (r, ds) => some (r, (digitsVal ds : Int))
    else none
  | [] => none

/-- The numeric branch of nom's `float`: optional sign, mantissa, optional
exponent (with nom's `cut`: an `e` not followed by digits is a hard failure). -/
def floatNum : NomP FVal := fun input =>
  let sn : Bool × List Char :=
    match input with
    | '+' :: r => (false, r)
    | '-' :: r => (true, r)
    | _ => (false, input)
  match mantissaP sn.2 with
  | none => none
  | some (cs1, md) =>
    match cs1 with
    | c :: _ =>
      if c == 'e' || c == 'E' then
        match expPart cs1 with
        | none => none
        | some (cs2, ex) => some (cs2, mkFVal sn.1 md.1 md.2 ex)
      else some (cs1, mkFVal sn.1 md.1 md.2 0)
    | [] => some (cs1, mkFVal sn.1 md.1 md.2 0)

/-- nom `number::complete::float`: a number, or one of the unsigned special
forms `infinity`/`inf`/`nan` (case-insensitive). -/
def floatP : NomP FVal := fun input =>
  match floatNum input with
  | some r => some r
  | none =>
    if lstartsCI "infinity".data input then some (input.drop 8, FVal.inf false)
    else if lstartsCI "inf".data input then some (input.drop 3, FVal.inf false)
    else if lstartsCI "nan".data input then some (input.drop 3, FVal.nan)
    else none

/-- Rust `str::parse::<f32>`: optional sign, then `inf`/`infinity`/`nan`
(case-insensitive) or a decimal number with optional exponent; the whole
string must be consumed. -/
def rustF32Parse (s : String) : Option FVal :=
  let sn : Bool × List Char :=
    match s.data with
    | '+' :: r => (false, r)
    | '-' :: r => (true, r)
    | l => (false, l)
  if lstartsCI "infinity".data sn.2 ∧ sn.2.length = 8 then some (.inf sn.1)
  else if lstartsCI "inf".data sn.2 ∧ sn.2.length = 3 then some (.inf sn.1)
  else if lstartsCI "nan".data sn.2 ∧ sn.2.length = 3 then some .nan
  else
    match mantissaP sn.2 with
    | none => none
    | some (cs1, md) =>
      match cs1 with
      | [] => some (mkFVal sn.1 md.1 md.2 0)
      | _ =>
        match expPart cs1 with
        | some ([], ex) => some (mkFVal sn.1 md.1 md.2 ex)
        | _ => none

/-! ## Model of `src/parsers/sw_forecast_parser.rs` -/

/-- Model of `KPForecast` (sw_forecast_parser.rs:14-19). -/
structure KPForecast where
  date : String
  hour : Nat
  value : FVal
deriving Repr, DecidableEq

/-- Model of `SRSRBForecast` (sw_forecast_parser.rs:21-29). -/
structure SRSRBForecast where
  date : String
  s1 : Nat
  s2 : Nat
  s3 : Nat
  s4 : Nat
  s5 : Nat
deriving Repr, DecidableEq

/-- Model of `SWForecast` (sw_forecast_parser.rs:31-36). -/
structure SWForecast where
  kp : List KPForecast
  srs : List SRSRBForecast
  rb : List SRSRBForecast
deriving Repr, DecidableEq

/-- Model of `parse_date` (sw_forecast_parser.rs:40-45). -/
def parse_date : NomP String := do
  let month ← alpha1
  let _ ← space1
  let day ← digit1
  pure (String.mk month ++ " " ++ String.mk day)

/-- The last piece of `split(' ')`: the suffix after the last space (the
whole string when there is no space). -/
def lastSpacePiece (cs : List Char) : List Char :=
  (cs.reverse.takeWhile (fun c => c != ' ')).reverse

/-- Model of `parse_header` (sw_forecast_parser.rs:48-61); the `header` argument comes
first here so that the input stays the final argument. -/
def parse_header (header : List Char) : NomP (List String) := do
  let _ ← takeUntilP header
  let _ ← tagP header
  let _ ← multispace1
  let dates_wyear ← not_line_ending
  let year := " " ++ String.mk (lastSpacePiece dates_wyear)
  let _ ← line_ending
  let _ ← line_ending
  let dates ← many1P (precededP space1 parse_date)
  let dates := dates.map (fun d => d ++ year)
  let _ ← line_ending
  pure dates

/-- Model of `parse_kp_val` (sw_forecast_parser.rs:65-70). -/
def parse_kp_val : NomP FVal := do
  let kp_value ← floatP
  let _ ← optP space1
  let _ ← optP (delimitedP (tagP ['(']) alphanumeric1 (tagP [')']))
  pure kp_value

/-- Model of `parse_hours_interval` (sw_forecast_parser.rs:72-78); the `unwrap` of
`u8::from_str` panics above 255, modelled as failure. -/
def parse_hours_interval : NomP (Nat × Nat) := do
  let s ← digit1
  let _ ← tagP ['-']
  let e ← digit1
  let _ ← tagP ['U', 'T']
  match u8FromStr s, u8FromStr e with
  | some a, some b => pure (a, b)
  | _, _ => failP

/-- Model of `parse_kp_row` (sw_forecast_parser.rs:81-87). -/
def parse_kp_row : NomP (Nat × Nat × List FVal) := do
  let se ← parse_hours_interval
  let kps ← many1P (precededP space0 parse_kp_val)
  let _ ← optP multispace1
  let _ ← optP line_ending
  pure (se.1, se.2, kps)

/-- One row's cells of the build loop of `parse_kp_forecast`
(sw_forecast_parser.rs:94-103): the i-th value belongs to `dates[i]`
(an out-of-bounds index panics, modelled as `none`). -/
def buildKpCells (dates : List String) (tEnd : Nat) : List FVal → Nat → Option (List KPForecast)
  | [], _ => some []
  | kp :: ks, index =>
    match dates[index]? with
    | none => none
    | some date =>
      match buildKpCells dates tEnd ks (index + 1) with
      | none => none
      | some t => some (⟨date, tEnd, kp⟩ :: t)

/-- The build loop of `parse_kp_forecast` over all rows. -/
def buildKpRows (dates : List String) : List (Nat × Nat × List FVal) → Option (List KPForecast)
  | [] => some []
  | (_, tEnd, kps) :: rest =>
    match buildKpCells dates tEnd kps 0 with
    | none => none
    | some this =>
      match buildKpRows dates rest with
      | none => none
      | some t => some (this ++ t)

/-- Rust's `String::cmp` is `Less` or `Equal`: lexicographic byte-wise
comparison (UTF-8 byte order coincides with code-point order, compared here
via `Char.toNat`). -/
def listLeb : List Char → List Char → Bool
  | [], _ => true
  | _ :: _, [] => false
  | a :: as, b :: bs => if a.toNat = b.toNat then listLeb as bs else a.toNat < b.toNat

/-- Model of `a.cmp(&b) != Greater` for Rust `String`s. -/
def strLeb (a b : String) : Bool := listLeb a.data b.data

/-- Insert before the first element that is not strictly smaller (the shape
of a stable ascending insertion sort). -/
def orderedInsertB {α : Type} (le : α → α → Bool) (a : α) : List α → List α
  | [] => [a]
  | b :: l => if le a b then a :: b :: l else b :: orderedInsertB le a l

/-- Stable ascending insertion sort.  Rust's `sort_by` is a stable ascending
sort, and a stable ascending sort under a total preorder is unique, so this
models `results.sort_by(|a, b| a.date.cmp(&b.date))` exactly. -/
def insertionSortB {α : Type} (le : α → α → Bool) : List α → List α
  | [] => []
  | a :: l => orderedInsertB le a (insertionSortB le l)

/-- The ascending stable sort by date key (sw_forecast_parser.rs:106). -/
def sortKpByDate (l : List KPForecast) : List KPForecast :=
  insertionSortB (fun a b => strLeb a.date b.date) l

/-- Model of `parse_kp_forecast` (sw_forecast_parser.rs:89-109): header and dates,
then the rows, then the build loop (positional date lookup), then the sort. -/
def parse_kp_forecast : NomP (List KPForecast) := fun input =>
  match parse_header "NOAA Kp index breakdown".data input with
  | none => none
  | some (i1, dates) =>
    match many1P parse_kp_row i1 with
    | none => none
    | some (i2, rows) =>
      match buildKpRows dates rows with
      | none => none
      | some results => some (i2, sortKpByDate results)

/-- Model of `parse_prcnt_val` (sw_forecast_parser.rs:113-117). -/
def parse_prcnt_val : NomP Nat := do
  let v ← digit1
  let _ ← tagP ['%']
  match u8FromStr v with
  | some n => pure n
  | none => failP

/-- Model of `parse_solar_rb_storms` (sw_forecast_parser.rs:121-139); the
`storm_type` argument comes first so that the input stays the final
argument. -/
def parse_solar_rb_storms (storm_type : Char) : NomP (Nat × Nat) := do
  let _ ← tagP [storm_type]
  let sminDs ← digit1
  match u8FromStr sminDs with
  | none => failP
  | some s_min =>
    let s_max0 := if s_min + 1 > 5 then 5 else s_min + 1
    let greater ← optP (tagP " or greater".data)
    match greater with
    | some _ => pure (s_min, s_max0)
    | none => do
      let _ ← tagP ['-']
      let _ ← tagP [storm_type]
      let maxDs ← digit1
      match u8FromStr maxDs with
      | none => failP
      | some s_max => pure (s_min, s_max)

/-- Model of `parse_srs_rb_row` (sw_forecast_parser.rs:142-148). -/
def parse_srs_rb_row (storm_type : Char) : NomP (Nat × Nat × List Nat) := do
  let mm ← parse_solar_rb_storms storm_type
  let values ← many1P (precededP space0 parse_prcnt_val)
  let _ ← optP multispace1
  let _ ← optP line_ending
  pure (mm.1, mm.2, values)

/-- One slot of `srs_vec = [&mut s1, ..., &mut s5]`
(sw_forecast_parser.rs:174): write `v` into field `si + 1`.  Indices ≥ 5 are
unreachable (the asserts bound them) and leave the entry unchanged. -/
def setGradeIdx (e : SRSRBForecast) (si : Nat) (v : Nat) : SRSRBForecast :=
  match si with
  | 0 => { e with s1 := v }
  | 1 => { e with s2 := v }
  | 2 => { e with s3 := v }
  | 3 => { e with s4 := v }
  | 4 => { e with s5 := v }
  | _ => e

/-- The loop `for si in (s_min - 1)..s_max { *srs_vec[si] = value; }`
(sw_forecast_parser.rs:177-179). -/
def setGrades (e : SRSRBForecast) (s_min s_max v : Nat) : SRSRBForecast :=
  (List.range' (s_min - 1) (s_max - (s_min - 1))).foldl
    (fun acc si => setGradeIdx acc si v) e

/-- Model of `results.iter_mut().rfind(..)` followed by an in-place update: apply `f`
to the last entry with the given date, or report `none` when there is no
such entry. -/
def updateLastByDate (f : SRSRBForecast → SRSRBForecast) (date : String) :
    List SRSRBForecast → Option (List SRSRBForecast)
  | [] => none
  | x :: xs =>
    match updateLastByDate f date xs with
    | some xs' => some (x :: xs')
    | none => if x.date == date then some (f x :: xs) else none

/-- One (date, value) step of the merge loop of `parse_srs_rb_forecast`
(sw_forecast_parser.rs:157-180): find (or create, `s1..s5` zeroed) the
date's entry and write `value` into grades `s_min..s_max`. -/
def mergeStormValue (results : List SRSRBForecast) (date : String)
    (s_min s_max v : Nat) : List SRSRBForecast :=
  match updateLastByDate (fun e => setGrades e s_min s_max v) date results with
  | some r => r
  | none => results ++ [setGrades ⟨date, 0, 0, 0, 0, 0⟩ s_min s_max v]

/-- One row of the merge loop: values are matched positionally with
`dates[index]` (out-of-bounds panics → `none`); the `assert!`s on
`s_min`/`s_max` (sw_forecast_parser.rs:175-176) panic outside `[1, 5]`
(→ `none`). -/
def mergeStormRow (dates : List String) (s_min s_max : Nat) :
    List Nat → Nat → List SRSRBForecast → Option (List SRSRBForecast)
  | [], _, results => some results
  | v :: vs, index, results =>
    match dates[index]? with
    | none => none
    | some date =>
      if 1 ≤ s_min ∧ s_min ≤ 5 ∧ 1 ≤ s_max ∧ s_max ≤ 5 then
        mergeStormRow dates s_min s_max vs (index + 1)
          (mergeStormValue results date s_min s_max v)
      else none

/-- The merge loop of `parse_srs_rb_forecast` over all rows. -/
def mergeStormRows (dates : List String) :
    List (Nat × Nat × List Nat) → List SRSRBForecast → Option (List SRSRBForecast)
  | [], results => some results
  | (mn, mx, values) :: rest, results =>
    match mergeStormRow dates mn mx values 0 results with
    | none => none
    | some results' => mergeStormRows dates rest results'

/-- The ascending stable sort by date key (sw_forecast_parser.rs:183); see
`insertionSortB` for why this models Rust's `sort_by`. -/
def sortStormByDate (l : List SRSRBForecast) : List SRSRBForecast :=
  insertionSortB (fun a b => strLeb a.date b.date) l

/-- Model of `parse_srs_rb_forecast` (sw_forecast_parser.rs:151-186); the phrase and
storm letter come first so that the input stays the final argument. -/
def parse_srs_rb_forecast (header_phrase : List Char) (storm_type : Char) :
    NomP (List SRSRBForecast) := fun input =>
  match parse_header header_phrase input with
  | none => none
  | some (i1, dates) =>
    match many1P (parse_srs_rb_row storm_type) i1 with
    | none => none
    | some (i2, rows) =>
      match mergeStormRows dates rows [] with
      | none => none
      | some results => some (i2, sortStormByDate results)

/-- Model of `parse_srs_forecast` (sw_forecast_parser.rs:188-190). -/
def parse_srs_forecast : NomP (List SRSRBForecast) :=
  parse_srs_rb_forecast "Solar Radiation Storm Forecast".data 'S'

/-- Model of `parse_rb_forecast` (sw_forecast_parser.rs:192-194). -/
def parse_rb_forecast : NomP (List SRSRBForecast) :=
  parse_srs_rb_forecast "Radio Blackout Forecast".data 'R'

/-- Model of `parse_sw_forecast` (sw_forecast_parser.rs:199-208).  Each stage is run
on the remainder left by the previous one; a failing stage hits
`.finish().expect("Failed to parse text")`, i.e. the process panics instead
of the declared `Err` being returned. -/
def parse_sw_forecast (input : String) : RustResult SWForecast :=
  match parse_kp_forecast input.data with
  | none => .crash "Failed to parse text"
  | some (rest1, kp_data) =>
    match parse_srs_forecast rest1 with
    | none => .crash "Failed to parse text"
    | some (rest2, srs_data) =>
      match parse_rb_forecast rest2 with
      | none => .crash "Failed to parse text"
      | some (_, rb_data) => .ok ⟨kp_data, srs_data, rb_data⟩

/-! ## Model of `src/converters.rs` -/

/-- Model of `KpIndex` (converters.rs:9-13). -/
structure KpIndex where
  time_tag : String
  kp : FVal
deriving Repr, DecidableEq

/-- Model of `ProtonFlux` (converters.rs:25-32), after deserialisation; the skipped
`satellite` field is omitted and the `flux: f32` is the exact decimal of the
JSON number. -/
structure ProtonFlux where
  time_tag : String
  flux : Dec
  energy : String
deriving Repr, DecidableEq

/-- Model of `ProtonFluxMQTT` (converters.rs:34-41). -/
structure ProtonFluxMQTT where
  time_tag : String
  flux_gt10mev : Dec
  flux_gt50mev : Dec
  flux_gt100mev : Dec
  flux_gt500mev : Dec
deriving Repr, DecidableEq

/-! ### `serde_json::from_str::<Vec<Vec<String>>>`

Type-directed JSON parsing for an array of arrays of strings: optional
whitespace, `[`, rows separated by `,`, `]`, end of input; each row is `[`,
JSON strings separated by `,`, `]`.  Any other JSON value in these positions
is a deserialisation error.  Escapes are handled; surrogate-pair `\uXXXX`
escapes are not modelled. -/

def jsonWs (cs : List Char) : List Char :=
  cs.dropWhile (fun c => c == ' ' || c == '\t' || c == '\n' || c == '\r')

def hexVal (c : Char) : Option Nat :=
  if c.isDigit then some (c.toNat - 48)
  else if 'a' ≤ c ∧ c ≤ 'f' then some (c.toNat - 87)
  else if 'A' ≤ c ∧ c ≤ 'F' then some (c.toNat - 55)
  else none

/-- Body of a JSON string, after the opening quote: returns the remainder
after the closing quote and the decoded characters. -/
def jStrBody : Nat → List Char → Option (List Char × List Char)
  | 0, _ => none
  | fuel + 1, cs =>
    match cs with
    | '"' :: rest => some (rest, [])
    | '\\' :: rest =>
      match rest with
      | 'u' :: h1 :: h2 :: h3 :: h4 :: rest2 =>
        match hexVal h1, hexVal h2, hexVal h3, hexVal h4 with
        | some a, some b, some c, some d =>
          let code := ((a * 16 + b) * 16 + c) * 16 + d
          if code < 0xD800 ∨ 0xDFFF < code then
            match jStrBody fuel rest2 with
            | none => none
            | some (r, t) => some (r, Char.ofNat code :: t)
          else none
        | _, _, _, _ => none
      | e :: rest2 =>
        let c? : Option Char :=
          if e == '"' then some '"'
          else if e == '\\' then some '\\'
          else if e == '/' then some '/'
          else if e == 'b' then some (Char.ofNat 8)
          else if e == 'f' then some (Char.ofNat 12)
          else if e == 'n' then some '\n'
          else if e == 'r' then some '\r'
          else if e == 't' then some '\t'
          else none
        match c? with
        | none => none
        | some c =>
          match jStrBody fuel rest2 with
          | none => none
          | some (r, t) => some (r, c :: t)
      | [] => none
    | c :: rest =>
      if c.toNat < 32 then none
      else
        match jStrBody fuel rest with
        | none => none
        | some (r, t) => some (r, c :: t)
    | [] => none

/-- Elements of a non-empty JSON array of strings (first element expected at
the head, whitespace not yet skipped). -/
def jStrArrayElems : Nat → List Char → Option (List Char × List String)
  | 0, _ => none
  | fuel + 1, cs0 =>
    match jsonWs cs0 with
    | '"' :: rest =>
      match jStrBody (rest.length + 1) rest with
      | none => none
      | some (r1, content) =>
        match jsonWs r1 with
        | ',' :: r3 =>
          match jStrArrayElems fuel r3 with
          | none => none
          | some (r, t) => some (r, String.mk content :: t)
        | ']' :: r3 => some (r3, [String.mk content])
        | _ => none
    | _ => none

/-- A JSON array of strings, expected at the head of the input. -/
def jStrArray : List Char → Option (List Char × List String)
  | '[' :: rest =>
    match jsonWs rest with
    | ']' :: r2 => some (r2, [])
    | r2 => jStrArrayElems (r2.length + 1) r2
  | _ => none

/-- Elements of a non-empty JSON array of arrays of strings. -/
def jTableElems : Nat → List Char → Option (List Char × List (List String))
  | 0, _ => none
  | fuel + 1, cs0 =>
    match jStrArray (jsonWs cs0) with
    | none => none
    | some (r1, row) =>
      match jsonWs r1 with
      | ',' :: r3 =>
        match jTableElems fuel r3 with
        | none => none
        | some (r, t) => some (r, row :: t)
      | ']' :: r3 => some (r3, [row])
      | _ => none

/-- Model of `serde_json::from_str::<Vec<Vec<String>>>`: the whole input must be one
array of arrays of strings, up to whitespace. -/
def parseStringTable (s : String) : Option (List (List String)) :=
  match jsonWs s.data with
  | '[' :: rest =>
    match jsonWs rest with
    | ']' :: r2 => if (jsonWs r2).isEmpty then some [] else none
    | r2 =>
      match jTableElems (r2.length + 1) r2 with
      | none => none
      | some (r3, rows) => if (jsonWs r3).isEmpty then some rows else none
  | _ => none

/-- The body of `converter_kp`'s per-row loop (converters.rs:65-74): a row
with at least 2 cells becomes a `KpIndex` whose timestamp is normalised with
a +3h offset (`?` propagates its error) and whose Kp value falls back to 0.0
when unparsable; a shorter row is the `Err` of converters.rs:73. -/
def kpRow (item : List String) : RustResult KpIndex :=
  match item with
  | time_tag :: kp :: _ =>
    match convert_datetime time_tag .kpRelease 3 with
    | .ok t => .ok ⟨t, (rustF32Parse kp).getD (fnum 0 0)⟩
    | .err e => .err e
    | .crash e => .crash e
  | _ => .err "error during parsing data"

/-- The `for item in required_data.iter()` loop of `converter_kp`. -/
def kpLoop : List (List String) → List KpIndex → RustResult (List KpIndex)
  | [], acc => .ok acc
  | item :: rest, acc =>
    match kpRow item with
    | .ok r => kpLoop rest (acc ++ [r])
    | .err e => .err e
    | .crash e => .crash e

/-- The slice selection of `converter_kp` (converters.rs:48-61): of the rows
after the header, keep the trailing `num_elements = 7` (or all of them when
fewer remain). -/
def kpRetained (data_without_header : List (List String)) : List (List String) :=
  let num_elements := 7
  let start_index :=
    if data_without_header.length > num_elements then
      data_without_header.length - num_elements
    else 0
  data_without_header.drop start_index

/-- Model of `converter_kp` (converters.rs:44-78) from the deserialised table on:
`&raw_data[1..]` panics on an empty table; then the trailing 7 rows are kept
and converted. -/
def converter_kp_records (raw_data : List (List String)) : RustResult (List KpIndex) :=
  match raw_data with
  | [] => .crash "range start index 1 out of range for slice of length 0"
  | _ :: data_without_header => kpLoop (kpRetained data_without_header) []

/-- Model of `converter_kp` (converters.rs:44-78) from the raw JSON text; the final
`serde_json::to_string` (which cannot fail for these values) is omitted, so
the converter returns the `Vec<KpIndex>` that would be serialised. -/
def converter_kp (raw_text : String) : RustResult (List KpIndex) :=
  match parseStringTable raw_text with
  | none => .err "deserilisation error"
  | some raw_data => converter_kp_records raw_data

/-- The `for item in required_data.iter()` loop of `converter_flux`
(converters.rs:121-134): band labels select the field to overwrite in the
single working record; `">=500 MeV"` additionally stamps the timestamp and
pushes a copy of the record, which is NOT cleared afterwards. -/
def fluxLoop :
    List ProtonFlux → ProtonFluxMQTT → List ProtonFluxMQTT → RustResult (List ProtonFluxMQTT)
  | [], _, acc => .ok acc
  | item :: rest, mqtt_record, acc =>
    if item.energy == ">=10 MeV" then
      fluxLoop rest { mqtt_record with flux_gt10mev := item.flux } acc
    else if item.energy == ">=100 MeV" then
      fluxLoop rest { mqtt_record with flux_gt100mev := item.flux } acc
    else if item.energy == ">=50 MeV" then
      fluxLoop rest { mqtt_record with flux_gt50mev := item.flux } acc
    else if item.energy == ">=500 MeV" then
      match convert_datetime item.time_tag .isoTz 0 with
      | .ok t =>
        let r := { mqtt_record with flux_gt500mev := item.flux, time_tag := t }
        fluxLoop rest r (acc ++ [r])
      | .err e => .err e
      | .crash e => .crash e
    else fluxLoop rest mqtt_record acc

/-- The slice selection of `converter_flux` (converters.rs:99-110): the
trailing `num_records * 4 = 8` samples (or all of them when fewer remain). -/
def fluxWindow (raw_data : List ProtonFlux) : List ProtonFlux :=
  let num_records := 2
  let num_elements := num_records * 4
  let start_index :=
    if raw_data.length > num_elements then raw_data.length - num_elements else 0
  raw_data.drop start_index

/-- Model of `converter_flux` (converters.rs:95-137) from the deserialised sample
list on (the object-array deserialisation and the final infallible
serialisation are not modelled): keep the trailing 8 samples and fold them
from one zero-initialised working record, emitting on each `">=500 MeV"`. -/
def converter_flux (raw_data : List ProtonFlux) : RustResult (List ProtonFluxMQTT) :=
  fluxLoop (fluxWindow raw_data) ⟨"", ⟨0, 0⟩, ⟨0, 0⟩, ⟨0, 0⟩, ⟨0, 0⟩⟩ []

/-- Model of `converter_sw_forecast` (converters.rs:139-153): the bulletin parse
(whose failure is a panic, see `parse_sw_forecast`), with the `println!`
logging and the final infallible serialisation omitted. -/
def converter_sw_forecast (raw_text : String) : RustResult SWForecast :=
  parse_sw_forecast raw_text

/-- The literal reference bulletin `SW_FORECAST_DATA1` (sw_forecast_parser.rs:216-270), byte for byte. -/
def SW_FORECAST_DATA1 : String :=
  "
:Product: 3-Day Forecast
:Issued: 2024 May 01 0030 UTC
# Prepared by the U.S. Dept. of Commerce, NOAA, Space Weather Prediction Center
#
A. NOAA Geomagnetic Activity Observation and Forecast

The greatest observed 3 hr Kp over the past 24 hours was 4 (below NOAA
Scale levels).
The greatest expected 3 hr Kp for May 01-May 03 2024 is 4.67 (NOAA Scale
G1).

NOAA Kp index breakdown May 01-May 03 2024

             May 01       May 02       May 03
00-03UT       4.67 (G1)    3.67         3.67     
03-06UT       4.00         4.00         3.33     
06-09UT       3.00         3.67         3.00     
09-12UT       2.33         3.33         3.33     
12-15UT       2.67         6.00 (G2)    3.00     
15-18UT       2.33         2.67         3.33     
18-21UT       3.00         3.67         3.33     
21-00UT       3.33         3.67         8.67 (G4)

Rationale: G1 (Minor) geomagnetic storming is expected during the early
hours of 01 May due to transient influences.

B. NOAA Solar Radiation Activity Observation and Forecast

Solar radiation, as observed by NOAA GOES-18 over the past 24 hours, was
below S-scale storm level thresholds.

Solar Radiation Storm Forecast for May 01-May 03 2024

              May 01  May 02  May 03
S1 or greater    5%      5%      5%

Rationale: No S1 (Minor) or greater solar radiation storms are expected.
No significant active region activity favorable for radiation storm
production is forecast.

C. NOAA Radio Blackout Activity and Forecast

Radio blackouts reaching the R2 levels were observed over the past 24
hours. The largest was at Apr 30 2024 2346 UTC.

Radio Blackout Forecast for May 01-May 03 2024

              May 01        May 02        May 03
R1-R2           55%           45%           35%
R3 or greater   10%           10%            5%

Rationale: R1-2 (Minor-Moderate) radio blackouts due to M-class flare
activity primarily from AR 3654 are likely on 01 May.
"

/-! ## Concrete inputs and expected outputs -/

/-- The expected Kp table of the golden fixture, transcribed from
`test_parse_kp_forecast` (sw_forecast_parser.rs:275-302); `fnum m e` is the
exact decimal value of the `f32` literal. -/
def kpExpected : List KPForecast :=
  [⟨"May 01 2024", 3, fnum 467 (-2)⟩, ⟨"May 01 2024", 6, fnum 4 0⟩,
   ⟨"May 01 2024", 9, fnum 3 0⟩, ⟨"May 01 2024", 12, fnum 233 (-2)⟩,
   ⟨"May 01 2024", 15, fnum 267 (-2)⟩, ⟨"May 01 2024", 18, fnum 233 (-2)⟩,
   ⟨"May 01 2024", 21, fnum 3 0⟩, ⟨"May 01 2024", 0, fnum 333 (-2)⟩,
   ⟨"May 02 2024", 3, fnum 367 (-2)⟩, ⟨"May 02 2024", 6, fnum 4 0⟩,
   ⟨"May 02 2024", 9, fnum 367 (-2)⟩, ⟨"May 02 2024", 12, fnum 333 (-2)⟩,
   ⟨"May 02 2024", 15, fnum 6 0⟩, ⟨"May 02 2024", 18, fnum 267 (-2)⟩,
   ⟨"May 02 2024", 21, fnum 367 (-2)⟩, ⟨"May 02 2024", 0, fnum 367 (-2)⟩,
   ⟨"May 03 2024", 3, fnum 367 (-2)⟩, ⟨"May 03 2024", 6, fnum 333 (-2)⟩,
   ⟨"May 03 2024", 9, fnum 3 0⟩, ⟨"May 03 2024", 12, fnum 333 (-2)⟩,
   ⟨"May 03 2024", 15, fnum 3 0⟩, ⟨"May 03 2024", 18, fnum 333 (-2)⟩,
   ⟨"May 03 2024", 21, fnum 333 (-2)⟩, ⟨"May 03 2024", 0, fnum 867 (-2)⟩]

/-- The expected solar-radiation table of the golden fixture, transcribed
from `test_parse_srs_forecast` (sw_forecast_parser.rs:314-318). -/
def srsExpected : List SRSRBForecast :=
  [⟨"May 01 2024", 5, 5, 0, 0, 0⟩, ⟨"May 02 2024", 5, 5, 0, 0, 0⟩,
   ⟨"May 03 2024", 5, 5, 0, 0, 0⟩]

/-- The expected radio-blackout table of the golden fixture, transcribed
from `test_parse_rb_forecast` (sw_forecast_parser.rs:333-337). -/
def rbExpected : List SRSRBForecast :=
  [⟨"May 01 2024", 55, 55, 10, 10, 0⟩, ⟨"May 02 2024", 45, 45, 10, 10, 0⟩,
   ⟨"May 03 2024", 35, 35, 5, 5, 0⟩]

/-- A minimal well-formed bulletin whose dates straddle a month boundary
(chronologically Jan 31 before Feb 01): it exhibits the byte-wise,
non-calendar sort order of the date keys. -/
def JAN_FEB_BULLETIN : String :=
"NOAA Kp index breakdown Jan 31-Feb 01 2025

 Jan 31  Feb 01
00-03UT  1.00  2.00
Solar Radiation Storm Forecast x 2025

 Jan 31  Feb 01
S1 or greater  5%  5%
Radio Blackout Forecast x 2025

 Jan 31  Feb 01
R1-R2  10%  10%
"

/-- The parse of `JAN_FEB_BULLETIN`: `"Feb 01 2025"` sorts before
`"Jan 31 2025"` in every table. -/
def janFebExpected : SWForecast :=
  ⟨[⟨"Feb 01 2025", 3, fnum 2 0⟩, ⟨"Jan 31 2025", 3, fnum 1 0⟩],
   [⟨"Feb 01 2025", 5, 5, 0, 0, 0⟩, ⟨"Jan 31 2025", 5, 5, 0, 0, 0⟩],
   [⟨"Feb 01 2025", 10, 10, 0, 0, 0⟩, ⟨"Jan 31 2025", 10, 10, 0, 0, 0⟩]⟩

def FLUX_T1 : String := "2024-05-01T00:00:00Z"

def FLUX_T2 : String := "2024-05-01T00:05:00Z"

/-- Eight proton-flux samples in the cyclic band order
`[10, 50, 100, 500, 10, 50, 100, 500]` across two timestamps. -/
def fluxCyclic8 : List ProtonFlux :=
  [⟨FLUX_T1, ⟨1, 0⟩, ">=10 MeV"⟩, ⟨FLUX_T1, ⟨2, 0⟩, ">=50 MeV"⟩,
   ⟨FLUX_T1, ⟨3, 0⟩, ">=100 MeV"⟩, ⟨FLUX_T1, ⟨4, 0⟩, ">=500 MeV"⟩,
   ⟨FLUX_T2, ⟨5, 0⟩, ">=10 MeV"⟩, ⟨FLUX_T2, ⟨6, 0⟩, ">=50 MeV"⟩,
   ⟨FLUX_T2, ⟨7, 0⟩, ">=100 MeV"⟩, ⟨FLUX_T2, ⟨8, 0⟩, ">=500 MeV"⟩]

/-- The same two quadruples but with the second `">=10 MeV"` sample absent:
the second emitted record must inherit the first quadruple's 10-MeV value,
since the working record is never cleared. -/
def fluxMissing10 : List ProtonFlux :=
  [⟨FLUX_T1, ⟨1, 0⟩, ">=10 MeV"⟩, ⟨FLUX_T1, ⟨2, 0⟩, ">=50 MeV"⟩,
   ⟨FLUX_T1, ⟨3, 0⟩, ">=100 MeV"⟩, ⟨FLUX_T1, ⟨4, 0⟩, ">=500 MeV"⟩,
   ⟨FLUX_T2, ⟨6, 0⟩, ">=50 MeV"⟩,
   ⟨FLUX_T2, ⟨7, 0⟩, ">=100 MeV"⟩, ⟨FLUX_T2, ⟨8, 0⟩, ">=500 MeV"⟩]

/-- Three samples that all carry the `">=500 MeV"` band label. -/
def fluxAll500 : List ProtonFlux :=
  [⟨FLUX_T1, ⟨1, 0⟩, ">=500 MeV"⟩, ⟨FLUX_T1, ⟨2, 0⟩, ">=500 MeV"⟩,
   ⟨FLUX_T1, ⟨3, 0⟩, ">=500 MeV"⟩]

/-- The length of the list inside an `ok` outcome (0 otherwise). -/
def okListLength {α : Type} : RustResult (List α) → Nat
  | .ok l => l.length
  | _ => 0

/-! ## Claims -/

set_option maxHeartbeats 8000000

/-- C1: on the literal reference bulletin for May 01-03 2024 (the embedded
test fixture), `parse_sw_forecast` succeeds with exactly 24 Kp entries
(8 hour-slots for each of 3 dates) and 3 entries in each storm table, and
every date/hour/value and date/s1..s5 field equals the fixture's expected
tuple (as transcribed in `kpExpected`/`srsExpected`/`rbExpected` from the
repository's own tests). -/
theorem C1_golden_fixture :
    parse_sw_forecast SW_FORECAST_DATA1 = .ok ⟨kpExpected, srsExpected, rbExpected⟩ ∧
    kpExpected.length = 24 ∧ srsExpected.length = 3 ∧ rbExpected.length = 3 := by
  exact ⟨rfl, rfl, rfl, rfl⟩

/-- C2 (code bug): the bulletin conversion entry point does NOT return a
grammar failure as an error value; `parse_sw_forecast` runs
`.finish().expect("Failed to parse text")`, so the failing stage panics the
process.  At the failing input `""` (no bulletin header) the model yields
the panic outcome, not an `err`. -/
theorem C2_bulletin_failure_panics :
    converter_sw_forecast "" = .crash "Failed to parse text" ∧
    (converter_sw_forecast "").isErr = false := by
  exact ⟨rfl, rfl⟩

/-- C6: the 8 cyclically ordered samples produce exactly the two records,
each populated from its own quadruple; and with the second quadruple's
10-MeV sample absent, the second record keeps the first quadruple's 10-MeV
value because the working record is not cleared after an emit. -/
theorem C6_flux_quadruples :
    converter_flux fluxCyclic8 =
      .ok [⟨"00:00 01-05-2024", ⟨1, 0⟩, ⟨2, 0⟩, ⟨3, 0⟩, ⟨4, 0⟩⟩,
           ⟨"00:05 01-05-2024", ⟨5, 0⟩, ⟨6, 0⟩, ⟨7, 0⟩, ⟨8, 0⟩⟩] ∧
    converter_flux fluxMissing10 =
      .ok [⟨"00:00 01-05-2024", ⟨1, 0⟩, ⟨2, 0⟩, ⟨3, 0⟩, ⟨4, 0⟩⟩,
           ⟨"00:05 01-05-2024", ⟨1, 0⟩, ⟨6, 0⟩, ⟨7, 0⟩, ⟨8, 0⟩⟩] := by
  exact ⟨rfl, rfl⟩

/-- C10: the release-cadence Kp conversion on the JSON text `"[]"` (a
well-formed but empty table) panics at the header-dropping slice
`&raw_data[1..]` instead of returning an error value. -/
theorem C10_empty_table_panics :
    converter_kp "[]" = .crash "range start index 1 out of range for slice of length 0" ∧
    (converter_kp "[]").isErr = false := by
  exact ⟨rfl, rfl⟩

/-- C3 counterexample: three `">=500 MeV"` samples make the proton-flux
conversion emit three records, refuting the claimed bound of 2 on the
output length. -/
theorem C3_counterexample_three_records :
    (converter_flux fluxAll500).isOk = true ∧
    okListLength (converter_flux fluxAll500) = 3 ∧ ¬ (okListLength (converter_flux fluxAll500) ≤ 2) := by
  exact ⟨rfl, rfl, by decide⟩

/-- Emitted records of the flux loop: one per `">=500 MeV"` sample (on
success), on top of whatever was already accumulated. -/
theorem fluxLoop_ok_length :
    ∀ (items : List ProtonFlux) (rec : ProtonFluxMQTT) (acc out : List ProtonFluxMQTT),
      fluxLoop items rec acc = .ok out →
      out.length = acc.length + items.countP (fun s => s.energy == ">=500 MeV") := by
  intro items
  induction items with
  | nil =>
    intro rec acc out h
    simp only [fluxLoop, RustResult.ok.injEq] at h
    subst h
    simp
  | cons item rest ih =>
    intro rec acc out h
    simp only [fluxLoop] at h
    split_ifs at h with h10 h100 h50 h500
    · have he : item.energy = ">=10 MeV" := by rwa [beq_iff_eq] at h10
      have := ih _ _ _ h
      simp [List.countP_cons, he, this]
    · have he : item.energy = ">=100 MeV" := by rwa [beq_iff_eq] at h100
      have := ih _ _ _ h
      simp [List.countP_cons, he, this]
    · have he : item.energy = ">=50 MeV" := by rwa [beq_iff_eq] at h50
      have := ih _ _ _ h
      simp [List.countP_cons, he, this]
    · cases hcd : convert_datetime item.time_tag .isoTz 0 with
      | ok t =>
        rw [hcd] at h
        have := ih _ _ _ h
        simp only [List.length_append, List.length_cons, List.length_nil] at this
        simp [List.countP_cons, h500, this]
        omega
      | err e => rw [hcd] at h; cases h
      | crash e => rw [hcd] at h; cases h
    · have := ih _ _ _ h
      simp only [List.countP_cons, this]
      have : (item.energy == ">=500 MeV") = false := by
        exact Bool.not_eq_true _ ▸ (by simpa using h500)
      simp [this]

theorem fluxWindow_length_le (raw : List ProtonFlux) : (fluxWindow raw).length ≤ 8 := by
  simp only [fluxWindow, List.length_drop]
  split <;> omega

theorem fluxWindow_drop (raw : List ProtonFlux) :
    fluxWindow (raw.drop (raw.length - 8)) = fluxWindow raw := by
  by_cases h : raw.length > 8
  · simp only [fluxWindow, List.length_drop]
    have h8 : raw.length - (raw.length - 8) = 8 := by omega
    rw [h8]
    simp [h]
  · have h0 : raw.length - 8 = 0 := by omega
    rw [h0, List.drop_zero]

/-- C3 (amended): the proton-flux conversion processes only the trailing
window of at most 8 input samples, and on success emits exactly one record
per `">=500 MeV"`-labelled sample of that window — hence at most 8 records,
not at most 2. -/
theorem C3_amended_flux_window_bound :
    (∀ raw : List ProtonFlux,
      converter_flux raw = converter_flux (raw.drop (raw.length - 8))) ∧
    (∀ (raw : List ProtonFlux) (out : List ProtonFluxMQTT),
      converter_flux raw = .ok out →
      out.length = (fluxWindow raw).countP (fun s => s.energy == ">=500 MeV") ∧
      out.length ≤ 8) := by
  constructor
  · intro raw
    unfold converter_flux
    rw [fluxWindow_drop]
  · intro raw out h
    unfold converter_flux at h
    have hlen := fluxLoop_ok_length _ _ _ _ h
    simp only [List.length_nil, Nat.zero_add] at hlen
    refine ⟨hlen, ?_⟩
    calc out.length = _ := hlen
      _ ≤ (fluxWindow raw).length := List.countP_le_length _
      _ ≤ 8 := fluxWindow_length_le raw

/-- C3 witness: the amended bound instantiated at the empty input. -/
theorem C3_witness :
    ([] : List ProtonFluxMQTT).length =
      (fluxWindow []).countP (fun s => s.energy == ">=500 MeV") ∧
    ([] : List ProtonFluxMQTT).length ≤ 8 :=
  C3_amended_flux_window_bound.2 [] [] rfl

/-- When every row converts, the loop appends exactly one record per row, in
input order. -/
theorem kpLoop_ok_of_rows :
    ∀ (items : List (List String)) (acc : List KpIndex),
      (∀ r ∈ items, (kpRow r).isOk = true) →
      ∃ tail, kpLoop items acc = .ok (acc ++ tail) ∧
        List.Forall₂ (fun row rec => kpRow row = .ok rec) items tail := by
  intro items
  induction items with
  | nil =>
    intro acc _
    exact ⟨[], by simp [kpLoop], List.Forall₂.nil⟩
  | cons item rest ih =>
    intro acc hall
    have hitem : (kpRow item).isOk = true := hall item (by simp)
    cases hk : kpRow item with
    | ok k =>
      obtain ⟨tail, htail, hf⟩ := ih (acc ++ [k]) (fun r hr => hall r (by simp [hr]))
      refine ⟨k :: tail, ?_, List.Forall₂.cons hk hf⟩
      simp only [kpLoop, hk]
      rw [htail]
      simp
    | err e => rw [hk] at hitem; simp [RustResult.isOk] at hitem
    | crash e => rw [hk] at hitem; simp [RustResult.isOk] at hitem

/-- C7: an unparsable Kp cell does not fail its row — the row converts with
value 0.0 — and a table whose retained rows all convert (at least 2 cells
and a timestamp the +3h normalisation accepts without error or panic)
succeeds as a whole, parseable Kp values or not. -/
theorem C7_unparsable_kp_defaults_zero :
    (∀ (t k : String) (rest : List String) (out : String),
      rustF32Parse k = none → convert_datetime t .kpRelease 3 = .ok out →
      kpRow (t :: k :: rest) = .ok ⟨out, fnum 0 0⟩) ∧
    (∀ (hd : List String) (rows : List (List String)),
      (∀ r ∈ kpRetained rows, (kpRow r).isOk = true) →
      (converter_kp_records (hd :: rows)).isOk = true) := by
  constructor
  · intro t k rest out hk hcd
    simp [kpRow, hcd, hk]
  · intro hd rows hall
    obtain ⟨tail, ht, -⟩ := kpLoop_ok_of_rows (kpRetained rows) [] hall
    simp [converter_kp_records, ht, RustResult.isOk]

/-- C7 witness: a row with Kp cell "abc" converts to value 0.0, and a table
containing only such rows still succeeds. -/
theorem C7_witness :
    kpRow ["2024-05-01 00:00:00.000", "abc"] = .ok ⟨"03:00 01-05-2024", fnum 0 0⟩ ∧
    (converter_kp_records [["h"], ["2024-05-01 00:00:00.000", "abc"]]).isOk = true := by
  exact ⟨C7_unparsable_kp_defaults_zero.1 "2024-05-01 00:00:00.000" "abc" [] "03:00 01-05-2024"
           rfl rfl,
         C7_unparsable_kp_defaults_zero.2 ["h"] [["2024-05-01 00:00:00.000", "abc"]] (by decide)⟩

def digitChar (n : Nat) : Char := Char.ofNat (48 + n)

def startsDigit : List Char → Bool
  | [] => false
  | c :: _ => c.isDigit

/-- Grade field `i` of an entry (`i` in 1..5, mirroring `s1..s5`). -/
def gradeField (e : SRSRBForecast) : Nat → Nat
  | 1 => e.s1
  | 2 => e.s2
  | 3 => e.s3
  | 4 => e.s4
  | 5 => e.s5
  | _ => 0

/-- C4: a row head `<Letter><min>-<Letter><max>` parses to exactly
`(min, max)`, a row head `<Letter><min> or greater` parses to
`(min, min(min+1, 5))`, and writing a row's percentage into an entry sets
exactly the grade fields `min..max`, leaving every other grade field of
that entry unchanged. -/
theorem C4_grade_rows :
    (∀ (c : Char) (n m : Nat) (rest' : List Char),
      (c = 'S' ∨ c = 'R') → 1 ≤ n → n ≤ 5 → 1 ≤ m → m ≤ 5 →
      parse_solar_rb_storms c (c :: digitChar n :: '-' :: c :: digitChar m :: ' ' :: rest') =
        some ((' ' :: rest'), (n, m))) ∧
    (∀ (c : Char) (n : Nat) (rest : List Char),
      (c = 'S' ∨ c = 'R') → 1 ≤ n → n ≤ 5 →
      parse_solar_rb_storms c (c :: digitChar n :: (" or greater".data ++ rest)) =
        some (rest, (n, min (n + 1) 5))) ∧
    (∀ (e : SRSRBForecast) (v s_min s_max i : Nat),
      1 ≤ s_min → s_min ≤ 5 → s_max ≤ 5 → 1 ≤ i → i ≤ 5 →
      gradeField (setGrades e s_min s_max v) i =
        if s_min ≤ i ∧ i ≤ s_max then v else gradeField e i) := by
  refine ⟨?_, ?_, ?_⟩
  · rintro c n m rest' (rfl | rfl) hn1 hn2 hm1 hm2 <;>
      interval_cases n <;> interval_cases m <;> rfl
  · rintro c n rest (rfl | rfl) hn1 hn2 <;> interval_cases n <;> rfl
  · intro e v s_min s_max i h1 h2 h3 h4 h5
    interval_cases s_min <;> interval_cases s_max <;> interval_cases i <;> rfl

/-- C4 witness: the spec's own examples `"S1-S3 40%"` and
`"S1 or greater 5%"`, and field updates on a zeroed entry. -/
theorem C4_witness :
    parse_solar_rb_storms 'S' "S1-S3 40%".data = some (" 40%".data, (1, 3)) ∧
    parse_solar_rb_storms 'S' "S1 or greater 5%".data = some (" 5%".data, (1, 2)) ∧
    gradeField (setGrades ⟨"d", 0, 0, 0, 0, 0⟩ 1 3 40) 2 = 40 ∧
    gradeField (setGrades ⟨"d", 0, 0, 0, 0, 0⟩ 1 3 40) 4 = gradeField ⟨"d", 0, 0, 0, 0, 0⟩ 4 := by
  refine ⟨?_, ?_, ?_, ?_⟩
  · exact C4_grade_rows.1 'S' 1 3 "40%".data (Or.inl rfl)
      (by decide) (by decide) (by decide) (by decide)
  · exact C4_grade_rows.2.1 'S' 1 " 5%".data (Or.inl rfl) (by decide) (by decide)
  · have h := C4_grade_rows.2.2 ⟨"d", 0, 0, 0, 0, 0⟩ 40 1 3 2
      (by decide) (by decide) (by decide) (by decide) (by decide)
    simpa using h
  · have h := C4_grade_rows.2.2 ⟨"d", 0, 0, 0, 0, 0⟩ 40 1 3 4
      (by decide) (by decide) (by decide) (by decide) (by decide)
    simpa using h


theorem listLeb_total : ∀ as bs : List Char, listLeb as bs = true ∨ listLeb bs as = true := by
  intro as
  induction as with
  | nil => intro bs; left; rfl
  | cons a as ih =>
    intro bs
    cases bs with
    | nil => right; rfl
    | cons b bs' =>
      simp only [listLeb]
      by_cases h : a.toNat = b.toNat
      · rw [if_pos h, if_pos h.symm]
        exact ih bs'
      · rw [if_neg h, if_neg (fun hh => h hh.symm)]
        rcases Nat.lt_or_ge a.toNat b.toNat with h' | h'
        · left; exact decide_eq_true h'
        · right; exact decide_eq_true (by omega)

theorem listLeb_trans : ∀ as bs cs : List Char,
    listLeb as bs = true → listLeb bs cs = true → listLeb as cs = true := by
  intro as
  induction as with
  | nil => intro bs cs _ _; rfl
  | cons a as ih =>
    intro bs cs hab hbc
    cases bs with
    | nil => simp [listLeb] at hab
    | cons b bs' =>
      cases cs with
      | nil => simp [listLeb] at hbc
      | cons c cs' =>
        simp only [listLeb] at hab hbc ⊢
        by_cases h1 : a.toNat = b.toNat <;> by_cases h2 : b.toNat = c.toNat
        · rw [if_pos h1] at hab
          rw [if_pos h2] at hbc
          rw [if_pos (h1.trans h2)]
          exact ih bs' cs' hab hbc
        · rw [if_pos h1] at hab
          rw [if_neg h2] at hbc
          have hlt : b.toNat < c.toNat := of_decide_eq_true hbc
          rw [if_neg (by omega)]
          exact decide_eq_true (by omega)
        · rw [if_neg h1] at hab
          rw [if_pos h2] at hbc
          have hlt : a.toNat < b.toNat := of_decide_eq_true hab
          rw [if_neg (by omega)]
          exact decide_eq_true (by omega)
        · rw [if_neg h1] at hab
          rw [if_neg h2] at hbc
          have hlt1 : a.toNat < b.toNat := of_decide_eq_true hab
          have hlt2 : b.toNat < c.toNat := of_decide_eq_true hbc
          rw [if_neg (by omega)]
          exact decide_eq_true (by omega)

theorem mem_orderedInsertB {α : Type} (le : α → α → Bool) (a x : α) :
    ∀ l : List α, x ∈ orderedInsertB le a l ↔ x = a ∨ x ∈ l := by
  intro l
  induction l with
  | nil => simp [orderedInsertB]
  | cons b l ih =>
    simp only [orderedInsertB]
    by_cases h : le a b = true
    · rw [if_pos h]
      simp [List.mem_cons]
    · rw [if_neg h]
      simp only [List.mem_cons, ih]
      tauto

theorem pairwise_orderedInsertB {α : Type} (le : α → α → Bool)
    (htot : ∀ x y, le x y = true ∨ le y x = true)
    (htr : ∀ x y z, le x y = true → le y z = true → le x z = true)
    (a : α) : ∀ l : List α, List.Pairwise (fun x y => le x y = true) l →
      List.Pairwise (fun x y => le x y = true) (orderedInsertB le a l) := by
  intro l
  induction l with
  | nil => intro _; simp [orderedInsertB]
  | cons b l ih =>
    intro hp
    rcases List.pairwise_cons.mp hp with ⟨hb, hl⟩
    simp only [orderedInsertB]
    by_cases h : le a b = true
    · rw [if_pos h]
      refine List.Pairwise.cons ?_ hp
      intro y hy
      rcases List.mem_cons.mp hy with heq | hy'
      · rw [heq]
        exact h
      · exact htr a b y h (hb y hy')
    · rw [if_neg h]
      refine List.Pairwise.cons ?_ (ih hl)
      intro y hy
      rcases (mem_orderedInsertB le a y l).mp hy with heq | hy'
      · rw [heq]
        rcases htot a b with h' | h'
        · exact absurd h' h
        · exact h'
      · exact hb y hy'

theorem pairwise_insertionSortB {α : Type} (le : α → α → Bool)
    (htot : ∀ x y, le x y = true ∨ le y x = true)
    (htr : ∀ x y z, le x y = true → le y z = true → le x z = true) :
    ∀ l : List α, List.Pairwise (fun x y => le x y = true) (insertionSortB le l) := by
  intro l
  induction l with
  | nil => simp [insertionSortB]
  | cons a l ih =>
    simp only [insertionSortB]
    exact pairwise_orderedInsertB le htot htr a _ ih

theorem sortKpByDate_sorted (l : List KPForecast) :
    List.Pairwise (fun x y : KPForecast => strLeb x.date y.date = true) (sortKpByDate l) := by
  apply pairwise_insertionSortB
  · intro x y
    exact listLeb_total x.date.data y.date.data
  · intro x y z
    exact listLeb_trans x.date.data y.date.data z.date.data

theorem sortStormByDate_sorted (l : List SRSRBForecast) :
    List.Pairwise (fun x y : SRSRBForecast => strLeb x.date y.date = true) (sortStormByDate l) := by
  apply pairwise_insertionSortB
  · intro x y
    exact listLeb_total x.date.data y.date.data
  · intro x y z
    exact listLeb_trans x.date.data y.date.data z.date.data

theorem parse_kp_forecast_sorted (input rest : List Char) (out : List KPForecast)
    (h : parse_kp_forecast input = some (rest, out)) :
    List.Pairwise (fun x y : KPForecast => strLeb x.date y.date = true) out := by
  unfold parse_kp_forecast at h
  split at h
  · cases h
  · split at h
    · cases h
    · split at h
      · cases h
      · rename_i results heq
        obtain ⟨-, rfl⟩ : _ ∧ sortKpByDate results = out := by simpa using h
        exact sortKpByDate_sorted results

theorem parse_srs_rb_forecast_sorted (phrase : List Char) (letter : Char)
    (input rest : List Char) (out : List SRSRBForecast)
    (h : parse_srs_rb_forecast phrase letter input = some (rest, out)) :
    List.Pairwise (fun x y : SRSRBForecast => strLeb x.date y.date = true) out := by
  unfold parse_srs_rb_forecast at h
  split at h
  · cases h
  · split at h
    · cases h
    · split at h
      · cases h
      · rename_i results heq
        obtain ⟨-, rfl⟩ : _ ∧ sortStormByDate results = out := by simpa using h
        exact sortStormByDate_sorted results

/-- C9: every successfully parsed bulletin has its three tables sorted
ascending by date key under plain byte-wise string comparison; and on the
`JAN_FEB_BULLETIN` exhibit the resulting order ("Feb 01 2025" before
"Jan 31 2025") is literally non-chronological, i.e. not calendar-aware. -/
theorem C9_sorted_by_string_date :
    (∀ (input : String) (out : SWForecast), parse_sw_forecast input = .ok out →
      List.Pairwise (fun x y : KPForecast => strLeb x.date y.date = true) out.kp ∧
      List.Pairwise (fun x y : SRSRBForecast => strLeb x.date y.date = true) out.srs ∧
      List.Pairwise (fun x y : SRSRBForecast => strLeb x.date y.date = true) out.rb) ∧
    parse_sw_forecast JAN_FEB_BULLETIN = .ok janFebExpected := by
  constructor
  · intro input out h
    unfold parse_sw_forecast at h
    split at h
    · cases h
    · rename_i r1 kp heq1
      split at h
      · cases h
      · rename_i r2 srs heq2
        split at h
        · cases h
        · rename_i r3 rb heq3
          obtain rfl : SWForecast.mk kp srs rb = out := by simpa using h
          exact ⟨parse_kp_forecast_sorted _ _ _ heq1,
                 parse_srs_rb_forecast_sorted _ _ _ _ _ heq2,
                 parse_srs_rb_forecast_sorted _ _ _ _ _ heq3⟩
  · rfl

/-- C9 witness: the sortedness facts instantiated at the month-boundary
exhibit. -/
theorem C9_witness :
    List.Pairwise (fun x y : KPForecast => strLeb x.date y.date = true) janFebExpected.kp ∧
    List.Pairwise (fun x y : SRSRBForecast => strLeb x.date y.date = true) janFebExpected.srs ∧
    List.Pairwise (fun x y : SRSRBForecast => strLeb x.date y.date = true) janFebExpected.rb :=
  C9_sorted_by_string_date.1 JAN_FEB_BULLETIN janFebExpected rfl
